/-
Verification of the LegalPlates server core against its specification.

The development shallowly embeds the Python source:
* strings are `List Char`; Python `str.replace` / `in` / `str.split` /
  `str.strip` are modelled by executable recursive functions;
* floating point arithmetic is modelled by exact real arithmetic (`ℝ`)
  where square roots occur (embedding similarity), and by exact rational
  arithmetic (`ℚ`) for the scores and thresholds flowing through the
  matching pipeline;
* SQLAlchemy sessions are modelled by explicit state passing: a committed
  database state, the pending writes, and an oracle saying which commits
  fail (a failing commit rolls back the pending writes only);
* external collaborators (Gemini classification, Exa web search, the
  pgvector nearest-neighbour index) enter as explicit inputs; the pgvector
  cosine-distance operator is modelled by its mathematical definition.
-/
import Mathlib

namespace LegalPlates

/-! ## Render engine (app/services/template_generator.py, render_draft) -/

/-- The two brace characters used by the placeholder syntax. -/
def lbrace : Char := '\x7b'

/-- Closing brace character. -/
def rbrace : Char := '\x7d'

/-- `placeholder k` is the literal text of the placeholder for key `k`:
an opening double brace, the key, a closing double brace
(`f"{lbrace}{lbrace}{key}{rbrace}{rbrace}"` in the source, line 533). -/
def placeholder (k : List Char) : List Char :=
  lbrace :: lbrace :: (k ++ [rbrace, rbrace])

/-- Fuel-driven worker for Python `str.replace`: replaces the
non-overlapping occurrences of `pat` left to right.  The fuel is an upper
bound on the number of characters still to scan; `str_replace` below
always supplies enough. -/
def replaceFuel : ℕ → List Char → List Char → List Char → List Char
  | 0, text, _, _ => text
  | _ + 1, [], _, _ => []
  | fuel + 1, c :: t, pat, rep =>
      if pat.isPrefixOf (c :: t) ∧ pat ≠ [] then
        rep ++ replaceFuel fuel (List.drop pat.length (c :: t)) pat rep
      else
        c :: replaceFuel fuel t pat rep

/-- Python `text.replace(pat, rep)` for nonempty `pat` (every pattern the
source passes is a placeholder, hence nonempty). -/
def str_replace (text pat rep : List Char) : List Char :=
  replaceFuel text.length text pat rep

/-- Python `pat in text` (substring test). -/
def substr_in (pat : List Char) : List Char → Bool
  | [] => pat.isEmpty
  | c :: t => pat.isPrefixOf (c :: t) || substr_in pat t

/-- Index of the first occurrence of `pat` in the list, if any
(Python `str.find` restricted to what `split` needs). -/
def find_sub_idx (pat : List Char) : List Char → Option ℕ
  | [] => if pat.isEmpty then some 0 else none
  | c :: t => if pat.isPrefixOf (c :: t) then some 0 else (find_sub_idx pat t).map (· + 1)

/-- The characters Python `str.strip()` removes. -/
def is_py_space (c : Char) : Bool :=
  c = ' ' || c = '\t' || c = '\n' || c = '\x0d' || c = '\x0b' || c = '\x0c'

/-- Python `s.strip()`. -/
def py_strip (s : List Char) : List Char :=
  ((s.dropWhile is_py_space).reverse.dropWhile is_py_space).reverse

/-- The `"---"` delimiter of YAML frontmatter. -/
def dashes : List Char := ['-', '-', '-']

/-- Frontmatter extraction of `render_draft` (source lines 515-528):
if `body_md` starts with `"---"`, split at the second `"---"` and use the
stripped remainder; on malformed frontmatter (fewer than two delimiters)
or no leading delimiter, use the whole text. -/
def strip_frontmatter (body_md : List Char) : List Char :=
  if dashes.isPrefixOf body_md then
    match find_sub_idx dashes (body_md.drop 3) with
    | some i => py_strip ((body_md.drop 3).drop (i + 3))
    | none => body_md
  else body_md

/-- Python `str(value) if value is not None else ""`, for answers whose
values are already strings (`none` models Python `None`). -/
def py_str (v : Option (List Char)) : List Char := v.getD []

/-- `render_draft` (source lines 482-545): strip frontmatter, then for each
`(key, value)` of the answers mapping, in insertion order, replace every
occurrence of the placeholder of `key` by the string form of `value`
(the guard `if placeholder in draft` mirrors source line 534).  Answers
are an association list because Python dict iteration is insertion
order. -/
def render_draft (body_md : List Char) (answers : List (List Char × Option (List Char))) :
    List Char :=
  answers.foldl
    (fun draft kv =>
      if substr_in (placeholder kv.1) draft then
        str_replace draft (placeholder kv.1) (py_str kv.2)
      else draft)
    (strip_frontmatter body_md)

/-! ### Token bodies

A well-formed template body is an interleaving of literal runs and
placeholders.  `flatten_toks` produces the raw text the source actually
operates on; the render theorems quantify over bodies of this shape. -/

/-- One segment of a template body: a literal run or a placeholder. -/
inductive Tok where
  | lit (s : List Char)
  | var (k : List Char)
deriving DecidableEq

/-- The raw text of one token. -/
def tok_str : Tok → List Char
  | .lit s => s
  | .var k => placeholder k

/-- The raw text of a token body. -/
def flatten_toks (toks : List Tok) : List Char :=
  toks.foldr (fun t acc => tok_str t ++ acc) []

/-- A string free of both brace characters. -/
def brace_free (s : List Char) : Prop := ∀ c ∈ s, c ≠ lbrace ∧ c ≠ rbrace

instance (s : List Char) : Decidable (brace_free s) := by
  unfold brace_free; infer_instance

/-- Substituting one answered key in a token body. -/
def subst_tok (k rep : List Char) : Tok → Tok
  | .lit s => .lit s
  | .var j => if j = k then .lit rep else .var j

/-- Substituting a whole answers mapping in a token body: a key present in
the mapping is replaced by the string form of its value (empty for null),
an absent key is left as a placeholder. -/
def subst_answers (answers : List (List Char × Option (List Char))) : Tok → Tok
  | .lit s => .lit s
  | .var j =>
      match answers.lookup j with
      | some v => .lit (py_str v)
      | none => .var j

/-- Well-formedness of one body token: literal runs contain no opening
brace and keys contain no brace at all. -/
def tok_ok : Tok → Prop
  | .lit s => lbrace ∉ s
  | .var k => brace_free k

instance (t : Tok) : Decidable (tok_ok t) := by
  cases t <;> (unfold tok_ok; infer_instance)

/-! ## Vector math (app/services/embedding_service.py) -/

/-- `np.dot` on the float vectors (shapes are checked by the caller). -/
def dot (a b : List ℝ) : ℝ := (List.zipWith (· * ·) a b).sum

/-- Sum of squares; `np.linalg.norm v = Real.sqrt (sum_sq v)`. -/
def sum_sq (a : List ℝ) : ℝ := (a.map (fun x => x * x)).sum

/-- `compute_similarity` (source lines 51-89): `0.0` for an empty vector,
a dimension mismatch, or a zero norm; otherwise the cosine of the two
vectors remapped by `(cos + 1) / 2` and clamped into `[0, 1]`
(`max(0.0, min(1.0, (similarity + 1) / 2))`, line 84).  Exceptions cannot
occur in the real-arithmetic model, matching the `except` branch never
firing on valid float data. -/
noncomputable def compute_similarity (embedding1 embedding2 : List ℝ) : ℝ :=
  if embedding1.isEmpty || embedding2.isEmpty then 0
  else if embedding1.length ≠ embedding2.length then 0
  else if Real.sqrt (sum_sq embedding1) = 0 ∨ Real.sqrt (sum_sq embedding2) = 0 then 0
  else max 0 (min 1
    ((dot embedding1 embedding2 /
        (Real.sqrt (sum_sq embedding1) * Real.sqrt (sum_sq embedding2)) + 1) / 2))

/-- The order realized by Python's stable `list.sort(key=lambda x: x[1],
reverse=True)` on the enumerated similarity pairs: score strictly greater
first, and for equal scores the pair enumerated earlier first.  On a list
whose first components are strictly increasing (which `enumerate`
guarantees) the stable descending sort by score is exactly the sort by
this total order. -/
def py_rank (x y : ℕ × ℝ) : Prop := y.2 < x.2 ∨ (x.2 = y.2 ∧ x.1 ≤ y.1)

noncomputable instance : DecidableRel py_rank := fun _ _ => Classical.dec _

instance : IsTotal (ℕ × ℝ) py_rank where
  total x y := by
    rcases lt_trichotomy x.2 y.2 with h | h | h
    · exact Or.inr (Or.inl h)
    · rcases le_total x.1 y.1 with h1 | h1
      · exact Or.inl (Or.inr ⟨h, h1⟩)
      · exact Or.inr (Or.inr ⟨h.symm, h1⟩)
    · exact Or.inl (Or.inl h)

instance : IsTrans (ℕ × ℝ) py_rank where
  trans x y z hxy hyz := by
    rcases hxy with h1 | ⟨h1, h1'⟩ <;> rcases hyz with h2 | ⟨h2, h2'⟩
    · exact Or.inl (h2.trans h1)
    · exact Or.inl (h2 ▸ h1)
    · exact Or.inl (h1 ▸ h2)
    · exact Or.inr ⟨h1.trans h2, h1'.trans h2'⟩

/-- `find_most_similar` (source lines 91-128): empty query or empty
candidate list gives `[]`; otherwise score every candidate against the
query (`enumerate` is modelled by mapping over `List.range`), sort the
`(index, score)` pairs stably by score descending, truncate to `top_k`,
and keep the indices. -/
noncomputable def find_most_similar (query_embedding : List ℝ)
    (candidate_embeddings : List (List ℝ)) (top_k : ℕ) : List ℕ :=
  if query_embedding.isEmpty || candidate_embeddings.isEmpty then []
  else
    let similarities := (List.range candidate_embeddings.length).map
      (fun i => (i, compute_similarity query_embedding (candidate_embeddings.getD i [])))
    let sorted := List.insertionSort py_rank similarities
    (sorted.take top_k).map Prod.fst

/-! ## Persistence model (app/models, pgvector queries, generate_template) -/

/-- A row of the `template` table (app/models/template.py). -/
structure TRec where
  id : ℕ
  template_id : String
  title : String
  doc_type : Option String
  jurisdiction : Option String
  file_description : Option String
  similarity_tags : Option (List String)
  body_md : String
  embedding : Option (List ℝ)

/-- A row of the `template_variable` table
(app/models/template_variable.py; it has no `question` column). -/
structure VRec where
  id : ℕ
  template_id : ℕ
  key : String
  label : String
  required : Bool
  dtype : String
deriving DecidableEq

/-- The committed database state. -/
structure DB where
  templates : List TRec
  template_variables : List VRec

/-- The external pgvector cosine-distance operator
(`Template.embedding.cosine_distance(v)`), modelled by its mathematical
definition `1 - a·b / (‖a‖‖b‖)`; it ranges over `[0, 2]`. -/
noncomputable def cosine_distance (a b : List ℝ) : ℝ :=
  1 - dot a b / (Real.sqrt (sum_sq a) * Real.sqrt (sum_sq b))

/-- The query shared by `check_duplicate_template` (lines 639-646) and
`find_similar_templates` (lines 713-720): templates whose embedding is
non-null, each paired with its cosine distance to the query vector,
ordered by distance ascending (SQL leaves ties unspecified; the model
keeps table order for ties, which is one legal refinement). -/
noncomputable def query_nearest (dbt : List TRec) (v : List ℝ) : List (TRec × ℝ) :=
  List.insertionSort (fun x y => x.2 ≤ y.2)
    ((dbt.filter (fun t => t.embedding.isSome)).map
      (fun t => (t, cosine_distance (t.embedding.getD []) v)))

noncomputable instance : DecidableRel (fun (x y : TRec × ℝ) => x.2 ≤ y.2) :=
  fun _ _ => Real.decidableLE _ _

instance : IsTotal (TRec × ℝ) (fun x y => x.2 ≤ y.2) := ⟨fun x y => le_total x.2 y.2⟩

instance : IsTrans (TRec × ℝ) (fun x y => x.2 ≤ y.2) := ⟨fun _ _ _ h1 h2 => le_trans h1 h2⟩

/-- Python truthiness of the embedding value (`if embedding:` /
`if not embedding:`): `None` and the empty list are falsy. -/
def py_truthy : Option (List ℝ) → Bool
  | none => false
  | some l => !l.isEmpty

/-- `check_duplicate_template` (lines 599-669): `None` when no embedding
is given; otherwise take the stored template nearest to the embedding,
convert its cosine distance to a similarity `1 - distance`, and return it
iff the similarity reaches the threshold.  The model covers thresholds in
`[0, 1]` (outside that range the source raises before querying). -/
noncomputable def check_duplicate_template (embedding : Option (List ℝ)) (dbt : List TRec)
    (similarity_threshold : ℝ) : Option (TRec × ℝ) :=
  if !py_truthy embedding then none
  else
    match query_nearest dbt (embedding.getD []) with
    | [] => none
    | (t, d) :: _ => if similarity_threshold ≤ 1 - d then some (t, 1 - d) else none

/-- `find_similar_templates` (lines 671-753), after the query embedding
has been produced: the `top_k` stored templates nearest to the query,
each paired with `1.0 - distance` (lines 726-731; note: not clamped). -/
noncomputable def find_similar_templates (query_embedding : List ℝ) (dbt : List TRec)
    (top_k : ℕ) : List (TRec × ℝ) :=
  ((query_nearest dbt query_embedding).take top_k).map (fun td => (td.1, 1 - td.2))

/-- The variables of a stored template
(`db.query(TemplateVariable).filter(...).order_by(TemplateVariable.id)`,
lines 269-271; table order stands in for id order). -/
def questions_for (db : DB) (t : TRec) : List VRec :=
  db.template_variables.filter (fun v => v.template_id == t.id)

/-- The persistence phase of `generate_template` (lines 249-372), after
the AI calls produced the template fields, its variables and the
embedding (`none` models failed embedding generation, line 782):

1. if the embedding is truthy, run the duplicate check with threshold
   0.90 and, on a hit, return the existing template — with an empty
   questions list, see the inline note — without writing anything
   (lines 252-300);
2. otherwise save the template record and commit (lines 304-317), then
   add the variable records and commit again (lines 321-350).

`commit_fails n` says whether the n-th commit raises `SQLAlchemyError`;
a failing commit leaves the committed state as it was before that
transaction and the handler rolls back and raises (lines 359-365).
The save phase (lines 302-353) is `save_template_and_variables`: add the
template record and commit; then build and add the variable records and
commit again.  A failure of the first commit persists nothing.  When the
variable list is non-empty, building the first variable record always
raises: `TemplateVariable(..., question=question_json)` (line 346) passes
a keyword for a column the model does not have
(app/models/template_variable.py), so SQLAlchemy's declarative
constructor raises `TypeError`, the generic handler rolls back the open
(empty) transaction and raises HTTP 500 — the template stays committed
and no variable row is ever persisted.  Only with an empty variable list
does the flow reach the second commit (which can itself fail) and the
`ok` return. -/
noncomputable def save_template_and_variables (embedding : Option (List ℝ)) (tpl : TRec)
    (vars : List VRec) (db : DB) (commit_fails : ℕ → Bool) :
    DB × Except String (TRec × List VRec) :=
  if commit_fails 0 then (db, .error "Failed to save template to database")
  else if vars.isEmpty then
    if commit_fails 1 then
      (⟨db.templates ++ [{ tpl with embedding := embedding }], db.template_variables⟩,
        .error "Failed to save template to database")
    else
      (⟨db.templates ++ [{ tpl with embedding := embedding }], db.template_variables ++ vars⟩,
        .ok ({ tpl with embedding := embedding }, vars))
  else
    -- deterministic TypeError while building the first variable record
    -- (the Python message's quotes around the keyword are elided here)
    (⟨db.templates ++ [{ tpl with embedding := embedding }], db.template_variables⟩,
      .error "Failed to generate template: question is an invalid keyword argument for TemplateVariable")

noncomputable def generate_template (embedding : Option (List ℝ)) (tpl : TRec)
    (vars : List VRec) (db : DB) (commit_fails : ℕ → Bool) :
    DB × Except String (TRec × List VRec) :=
  if py_truthy embedding then
    match check_duplicate_template embedding db.templates (9 / 10) with
    | some ts =>
        -- The question-retrieval loop (lines 267-297) reads
        -- `var.question` for each stored variable, but TemplateVariable
        -- has no `question` column, so the first access raises
        -- AttributeError; the handler at line 295 swallows it and sets
        -- `existing_questions = []`.  With no stored variables the loop
        -- yields [] as well: the duplicate branch always returns the
        -- existing template with an empty questions list.
        (db, .ok (ts.1, []))
    | none => save_template_and_variables embedding tpl vars db commit_fails
  else save_template_and_variables embedding tpl vars db commit_fails

/-- A concrete template row used for concrete instantiations. -/
def sample_template (emb : Option (List ℝ)) : TRec :=
  ⟨1, "tpl-1", "Template One", none, none, none, none, "body", emb⟩

/-- A concrete variable row used for concrete instantiations. -/
def sample_variable : VRec := ⟨1, 1, "name", "Name", true, "string"⟩

/-! ## Matching pipeline stream (app/routers/draft.py, match_template_stream)

Scores and confidences reaching this layer are plain numbers coming from
the database and the external re-ranker; they are modelled as exact
rationals. -/

/-- One entry of `templates_data` (draft.py lines 192-203). -/
structure CandData where
  template_id : String
  title : String
  file_description : Option String
  doc_type : Option String
  jurisdiction : Option String
  similarity_tags : List String
  semantic_similarity : ℚ
deriving DecidableEq

/-- The `top_match` object returned by the external re-ranker. -/
structure TopMatchData where
  template_id : String
  title : Option String
  confidence : Option ℚ
  explanation : Option String
deriving DecidableEq

/-- The parsed response of `gemini.find_matching_template`. -/
structure Classification where
  found : Bool
  top_match : Option TopMatchData
deriving DecidableEq

/-- Outcome data of a successful `create_template_from_web` call. -/
structure WebOk where
  template_id : String
  title : String
  url : Option String
deriving DecidableEq

/-- Failure of `create_template_from_web`: an `HTTPException` with its
detail (this includes the 404 "found nothing" case, web_template_generator
lines 75-79) or any other exception. -/
inductive WebErr where
  | http (detail : String)
  | other
deriving DecidableEq

/-- One server-sent event of the stream: a progress status, the terminal
success payload (source of the top match, its confidence and semantic
similarity, and the `found` flag), or a terminal error status. -/
inductive SEvent where
  | progress (status : String) (message : String)
  | success (source : String) (confidence : ℚ) (semantic_similarity : Option ℚ) (found : Bool)
  | err (message : String)
deriving DecidableEq

/-- `SEARCH_THRESHOLD` (web_template_generator.py line 16). -/
def SEARCH_THRESHOLD : ℚ := 3 / 4

/-- Banker's rounding of Python `round` on an exact rational. -/
def round_half_even (q : ℚ) : ℤ :=
  if q - ⌊q⌋ < 1 / 2 then ⌊q⌋
  else if (1 : ℚ) / 2 < q - ⌊q⌋ then ⌊q⌋ + 1
  else if 2 ∣ ⌊q⌋ then ⌊q⌋ else ⌊q⌋ + 1

/-- `round(similarity_score, 3)` (draft.py line 200). -/
def py_round3 (q : ℚ) : ℚ := (round_half_even (q * 1000) : ℚ) / 1000

/-- The `templates_data` entry built for one semantic-search result. -/
def cand_data (t : TRec) (s : ℚ) : CandData :=
  ⟨t.template_id, t.title, t.file_description, t.doc_type, t.jurisdiction,
    t.similarity_tags.getD [], s⟩

/-- `_get_semantic_similarity` (draft.py lines 73-78): the
`semantic_similarity` of the first candidate with the given template id,
`0.0` if none matches. -/
def get_semantic_similarity (template_id : String) (templates_data : List CandData) : ℚ :=
  match templates_data.find? (fun d => d.template_id == template_id) with
  | some d => d.semantic_similarity
  | none => 0

/-- The message of the terminal error event yielded when the web fallback
raises (draft.py lines 180-187, 251-258, 312-319). -/
def web_err_message : WebErr → String
  | .http detail => "Web search failed: " ++ detail
  | .other => "An unexpected error occurred during web search"

/-- The events of one web-fallback block (draft.py lines 141-187, 212-258,
273-319; the three copies differ only in the first status message): three
progress events before the `create_template_from_web` call, then on
success two more progress events and the terminal success payload
(confidence fixed at 0.85, source `"web"`), and on failure the terminal
error event. -/
def web_fallback_events (search_msg : String) (web : Except WebErr WebOk) : List SEvent :=
  .progress "searching_web" search_msg ::
  .progress "fetching_content" "Fetching document content from web..." ::
  .progress "generating_template" "Generating template from web content..." ::
  match web with
  | .ok _ =>
      [.progress "creating_variables" "Creating variables and questions...",
       .progress "finalizing" "Finalizing template...",
       .success "web" (85 / 100) none true]
  | .error e => [.err (web_err_message e)]

/-- `match_template_stream` (draft.py lines 109-369) as a function from
the three collaborator outcomes to the emitted event sequence: `similar`
is what `find_similar_templates` returned, `cls` the parsed re-ranker
response, `web` the outcome `create_template_from_web` would have.
Empty search results, an unusable re-ranker response, and a match quality
`max(confidence, semantic_similarity) < SEARCH_THRESHOLD` all divert to
the web fallback; otherwise the stream ends with the database match. -/
def match_template_stream (similar : List (TRec × ℚ)) (cls : Classification)
    (web : Except WebErr WebOk) : List SEvent :=
  .progress "searching" "Searching for matching templates..." ::
  (if similar.isEmpty then
    web_fallback_events "No templates in database, searching the web for legal templates..." web
  else
    match cls.top_match with
    | none => web_fallback_events "Searching the web for legal templates..." web
    | some tm =>
      if cls.found = false then
        web_fallback_events "Searching the web for legal templates..." web
      else
        if max (tm.confidence.getD 0)
            (get_semantic_similarity tm.template_id
              (similar.map (fun ts => cand_data ts.1 (py_round3 ts.2)))) <
            SEARCH_THRESHOLD then
          web_fallback_events "Searching the web for better templates..." web
        else
          [.success "database" (tm.confidence.getD 0)
            (some (get_semantic_similarity tm.template_id
              (similar.map (fun ts => cand_data ts.1 (py_round3 ts.2))))) true])

/-- The disjunction of conditions that divert `match_template_stream` to
the web fallback: empty semantic search results (cold index), an unusable
re-ranker response, or a match quality below the threshold. -/
def fallback_path_taken (similar : List (TRec × ℚ)) (cls : Classification) : Prop :=
  similar.isEmpty = true ∨ cls.top_match = none ∨ cls.found = false ∨
    (∃ tm, cls.top_match = some tm ∧ cls.found = true ∧
      max (tm.confidence.getD 0)
        (get_semantic_similarity tm.template_id
          (similar.map (fun ts => cand_data ts.1 (py_round3 ts.2)))) < SEARCH_THRESHOLD)

/-! ## Lemmas: Python string primitives -/

theorem replaceFuel_congr (f1 : ℕ) : ∀ (text : List Char) (f2 : ℕ) (pat rep : List Char),
    text.length ≤ f1 → text.length ≤ f2 →
    replaceFuel f1 text pat rep = replaceFuel f2 text pat rep := by
  induction f1 with
  | zero =>
    intro text f2 pat rep h1 _
    have : text = [] := List.eq_nil_of_length_eq_zero (Nat.le_zero.mp h1)
    subst this
    cases f2 <;> rfl
  | succ g ih =>
    intro text f2 pat rep h1 h2
    cases text with
    | nil => cases f2 <;> rfl
    | cons c t =>
      cases f2 with
      | zero => simp at h2
      | succ g2 =>
        simp only [List.length_cons] at h1 h2
        simp only [replaceFuel]
        by_cases hc : pat.isPrefixOf (c :: t) = true ∧ pat ≠ []
        · have hp : 1 ≤ pat.length := by
            cases pat with
            | nil => exact absurd rfl hc.2
            | cons p ps => simp
          have hd : (List.drop pat.length (c :: t)).length ≤ t.length := by
            rw [List.length_drop, List.length_cons]
            omega
          rw [if_pos hc, if_pos hc, ih _ g2 pat rep (by omega) (by omega)]
        · rw [if_neg hc, if_neg hc, ih t g2 pat rep (by omega) (by omega)]

theorem str_replace_nil (pat rep : List Char) : str_replace [] pat rep = [] := rfl

theorem str_replace_cons (c : Char) (t pat rep : List Char) :
    str_replace (c :: t) pat rep =
      if pat.isPrefixOf (c :: t) ∧ pat ≠ [] then
        rep ++ str_replace (List.drop pat.length (c :: t)) pat rep
      else c :: str_replace t pat rep := by
  show replaceFuel (t.length + 1) (c :: t) pat rep = _
  simp only [replaceFuel]
  by_cases hc : pat.isPrefixOf (c :: t) = true ∧ pat ≠ []
  · have hp : 1 ≤ pat.length := by
      cases pat with
      | nil => exact absurd rfl hc.2
      | cons p ps => simp
    have hd : (List.drop pat.length (c :: t)).length ≤ t.length := by
      rw [List.length_drop, List.length_cons]
      omega
    rw [if_pos hc, if_pos hc]
    exact congrArg (rep ++ ·)
      (replaceFuel_congr t.length _ _ pat rep hd (Nat.le_refl _))
  · rw [if_neg hc, if_neg hc]
    rfl

theorem isPrefixOf_append_self (l t : List Char) : l.isPrefixOf (l ++ t) = true := by
  induction l with
  | nil => simp
  | cons c l ih => simp [List.isPrefixOf_cons₂, ih]

/-- A pattern starting with a different character is not a prefix. -/
theorem isPrefixOf_cons_false (p c : Char) (ps t : List Char) (h : p ≠ c) :
    (p :: ps).isPrefixOf (c :: t) = false := by
  simp [List.isPrefixOf_cons₂, h]

/-- A placeholder is never the empty string. -/
theorem placeholder_ne_nil (k : List Char) : placeholder k ≠ [] := by
  simp [placeholder]

/-- No occurrence of a placeholder can start inside text that contains no
opening brace. -/
theorem str_replace_lit (s : List Char) : ∀ (t k rep : List Char), lbrace ∉ s →
    str_replace (s ++ t) (placeholder k) rep = s ++ str_replace t (placeholder k) rep := by
  induction s with
  | nil => intro t k rep _; rfl
  | cons c s ih =>
    intro t k rep hs
    have hc : lbrace ≠ c := fun h => hs (h ▸ List.mem_cons_self c s)
    rw [List.cons_append, str_replace_cons,
      if_neg (by rw [placeholder, isPrefixOf_cons_false _ _ _ _ hc]; simp),
      ih t k rep (fun h => hs (List.mem_cons_of_mem c h)), List.cons_append]

/-- Replacement consumes a placeholder standing at the head of the text. -/
theorem str_replace_at_match (k rep t : List Char) :
    str_replace (placeholder k ++ t) (placeholder k) rep =
      rep ++ str_replace t (placeholder k) rep := by
  have h1 : placeholder k ++ t = lbrace :: (lbrace :: (k ++ [rbrace, rbrace]) ++ t) := by
    simp [placeholder]
  rw [h1, str_replace_cons]
  rw [if_pos ⟨by rw [← h1]; exact isPrefixOf_append_self _ _, placeholder_ne_nil k⟩]
  rw [← h1, List.drop_left]

/-- Two placeholders with brace-free keys match only if the keys are
equal: the closing braces act as end markers, so neither key being a
prefix of the other causes a spurious match. -/
theorem key_prefix_eq (k : List Char) : ∀ (j t : List Char), brace_free k → brace_free j →
    (k ++ [rbrace, rbrace]).isPrefixOf (j ++ (rbrace :: rbrace :: t)) = true → k = j := by
  induction k with
  | nil =>
    intro j t _ hj h
    cases j with
    | nil => rfl
    | cons c j' =>
      exfalso
      simp only [List.nil_append, List.cons_append, List.isPrefixOf_cons₂, Bool.and_eq_true,
        beq_iff_eq] at h
      exact (hj c (List.mem_cons_self c j')).2 h.1.symm
  | cons a k' ih =>
    intro j t hk hj h
    cases j with
    | nil =>
      exfalso
      simp only [List.cons_append, List.nil_append, List.isPrefixOf_cons₂, Bool.and_eq_true,
        beq_iff_eq] at h
      exact (hk a (List.mem_cons_self a k')).2 h.1
    | cons c j' =>
      simp only [List.cons_append, List.isPrefixOf_cons₂, Bool.and_eq_true, beq_iff_eq] at h
      have hk' : brace_free k' := fun x hx => hk x (List.mem_cons_of_mem a hx)
      have hj' : brace_free j' := fun x hx => hj x (List.mem_cons_of_mem c hx)
      rw [h.1, ih j' t hk' hj' h.2]

/-- Scanning a placeholder for a different brace-free key finds no match
inside it. -/
theorem str_replace_other_var (j k rep t : List Char) (hj : brace_free j) (hk : brace_free k)
    (hne : j ≠ k) :
    str_replace (placeholder j ++ t) (placeholder k) rep =
      placeholder j ++ str_replace t (placeholder k) rep := by
  have hlr : lbrace ≠ rbrace := by decide
  -- step 1: no match at the first opening brace
  have h0 : (placeholder k).isPrefixOf (lbrace :: (lbrace :: (j ++ (rbrace :: rbrace :: t)))) =
      false := by
    by_contra hcontra
    rw [Bool.not_eq_false] at hcontra
    simp only [placeholder, List.isPrefixOf_cons₂, Bool.and_eq_true, beq_iff_eq] at hcontra
    exact hne (key_prefix_eq k j t hk hj hcontra.2.2).symm
  -- step 2: no match at the second opening brace
  have h1 : (placeholder k).isPrefixOf (lbrace :: (j ++ (rbrace :: rbrace :: t))) = false := by
    cases j with
    | nil =>
      rw [placeholder, List.nil_append]
      simp only [List.isPrefixOf_cons₂, isPrefixOf_cons_false _ _ _ _ hlr]
      simp
    | cons c j' =>
      have hc : lbrace ≠ c := fun h => (hj c (List.mem_cons_self c j')).1 h.symm
      rw [placeholder, List.cons_append]
      simp only [List.isPrefixOf_cons₂, isPrefixOf_cons_false _ _ _ _ hc]
      simp
  -- steps 4 and 5: no match at the closing braces
  have hrb : ∀ u : List Char, (placeholder k).isPrefixOf (rbrace :: u) = false := by
    intro u
    rw [placeholder]
    exact isPrefixOf_cons_false _ _ _ _ hlr
  have expand : placeholder j ++ t = lbrace :: (lbrace :: (j ++ (rbrace :: rbrace :: t))) := by
    simp [placeholder]
  rw [expand, str_replace_cons, if_neg (by simp [h0]), str_replace_cons, if_neg (by simp [h1]),
    str_replace_lit j (rbrace :: rbrace :: t) k rep (fun hmem => (hj lbrace hmem).1 rfl),
    str_replace_cons, if_neg (by simp [hrb]), str_replace_cons, if_neg (by simp [hrb])]
  simp [placeholder]

/-! ## Lemmas: render on token bodies -/

theorem flatten_toks_nil : flatten_toks [] = [] := rfl

theorem flatten_toks_cons (t : Tok) (ts : List Tok) :
    flatten_toks (t :: ts) = tok_str t ++ flatten_toks ts := rfl

/-- One `str.replace` pass over a well-formed body substitutes exactly the
occurrences of the one answered key. -/
theorem str_replace_flatten (toks : List Tok) (k rep : List Char)
    (hlit : ∀ s, Tok.lit s ∈ toks → lbrace ∉ s)
    (hvar : ∀ j, Tok.var j ∈ toks → brace_free j) (hk : brace_free k) :
    str_replace (flatten_toks toks) (placeholder k) rep =
      flatten_toks (toks.map (subst_tok k rep)) := by
  induction toks with
  | nil => rfl
  | cons t ts ih =>
    have hlit' : ∀ s, Tok.lit s ∈ ts → lbrace ∉ s :=
      fun s hs => hlit s (List.mem_cons_of_mem t hs)
    have hvar' : ∀ j, Tok.var j ∈ ts → brace_free j :=
      fun j hj => hvar j (List.mem_cons_of_mem t hj)
    cases t with
    | lit s =>
      rw [flatten_toks_cons, tok_str,
        str_replace_lit s _ k rep (hlit s (List.mem_cons_self _ _)), ih hlit' hvar',
        List.map_cons, subst_tok, flatten_toks_cons, tok_str]
    | var j =>
      by_cases hjk : j = k
      · subst hjk
        rw [flatten_toks_cons, tok_str, str_replace_at_match, ih hlit' hvar',
          List.map_cons, subst_tok, if_pos rfl, flatten_toks_cons, tok_str]
      · rw [flatten_toks_cons, tok_str,
          str_replace_other_var j k rep _ (hvar j (List.mem_cons_self _ _)) hk hjk,
          ih hlit' hvar', List.map_cons, subst_tok, if_neg hjk, flatten_toks_cons, tok_str]

theorem substr_in_append_match (k : List Char) : ∀ (pre suf : List Char),
    substr_in (placeholder k) (pre ++ (placeholder k ++ suf)) = true := by
  intro pre
  induction pre with
  | nil =>
    intro suf
    rw [List.nil_append]
    have : placeholder k ++ suf = lbrace :: (lbrace :: (k ++ [rbrace, rbrace]) ++ suf) := by
      simp [placeholder]
    rw [this, substr_in, ← this, isPrefixOf_append_self]
    rfl
  | cons c pre ih =>
    intro suf
    rw [List.cons_append, substr_in, ih suf, Bool.or_true]

theorem mem_var_flatten (toks : List Tok) (k : List Char) (h : Tok.var k ∈ toks) :
    ∃ pre suf, flatten_toks toks = pre ++ (placeholder k ++ suf) := by
  induction toks with
  | nil => cases h
  | cons t ts ih =>
    rcases List.mem_cons.mp h with h | h
    · exact ⟨[], flatten_toks ts, by rw [← h, flatten_toks_cons, tok_str, List.nil_append]⟩
    · obtain ⟨pre, suf, hps⟩ := ih h
      exact ⟨tok_str t ++ pre, suf, by rw [flatten_toks_cons, hps, List.append_assoc]⟩

theorem no_var_of_not_substr (toks : List Tok) (k : List Char)
    (h : substr_in (placeholder k) (flatten_toks toks) = false) : Tok.var k ∉ toks := by
  intro hmem
  obtain ⟨pre, suf, hps⟩ := mem_var_flatten toks k hmem
  rw [hps, substr_in_append_match] at h
  cases h

theorem map_subst_tok_id (toks : List Tok) (k rep : List Char) (h : Tok.var k ∉ toks) :
    toks.map (subst_tok k rep) = toks := by
  induction toks with
  | nil => rfl
  | cons t ts ih =>
    rw [List.map_cons, ih (fun hm => h (List.mem_cons_of_mem t hm))]
    cases t with
    | lit s => rfl
    | var j =>
      have hjk : j ≠ k := fun hj => h (hj ▸ List.mem_cons_self _ _)
      rw [subst_tok, if_neg hjk]

theorem subst_answers_nil_tok (t : Tok) : subst_answers [] t = t := by
  cases t <;> rfl

theorem map_subst_answers_nil (toks : List Tok) : toks.map (subst_answers []) = toks := by
  induction toks with
  | nil => rfl
  | cons t ts ih => rw [List.map_cons, subst_answers_nil_tok, ih]

theorem subst_answers_cons_tok (k : List Char) (v : Option (List Char))
    (rest : List (List Char × Option (List Char))) (t : Tok) :
    subst_answers ((k, v) :: rest) t = subst_answers rest (subst_tok k (py_str v) t) := by
  cases t with
  | lit s => rfl
  | var j =>
    by_cases hjk : j = k
    · subst hjk
      simp [subst_answers, subst_tok, List.lookup]
    · simp [subst_answers, subst_tok, List.lookup, hjk, beq_eq_false_iff_ne.mpr hjk]

/-- Inverting `subst_tok` on a literal result. -/
theorem subst_tok_lit_inv (k rep : List Char) (t : Tok) (s : List Char)
    (h : subst_tok k rep t = .lit s) : s = rep ∨ t = .lit s := by
  cases t with
  | lit s0 =>
    right
    rw [subst_tok] at h
    rw [h]
  | var j =>
    left
    rw [subst_tok] at h
    by_cases hjk : j = k
    · rw [if_pos hjk] at h
      injection h with h
      exact h.symm
    · rw [if_neg hjk] at h
      cases h

/-- Inverting `subst_tok` on a placeholder result. -/
theorem subst_tok_var_inv (k rep : List Char) (t : Tok) (j : List Char)
    (h : subst_tok k rep t = .var j) : t = .var j := by
  cases t with
  | lit s0 => rw [subst_tok] at h; cases h
  | var j0 =>
    rw [subst_tok] at h
    by_cases hjk : j0 = k
    · rw [if_pos hjk] at h; cases h
    · rw [if_neg hjk] at h
      exact h

/-- The replacement loop of `render_draft`, run on a well-formed body,
performs exactly the per-key substitution of `subst_answers`: keys present
in the answers are substituted (with the empty string when the value is
null), keys absent from the answers survive as placeholders. -/
theorem render_loop_flatten (answers : List (List Char × Option (List Char))) :
    ∀ toks : List Tok,
    (∀ s, Tok.lit s ∈ toks → lbrace ∉ s) →
    (∀ j, Tok.var j ∈ toks → brace_free j) →
    (∀ kv ∈ answers, brace_free kv.1) →
    (∀ kv ∈ answers, lbrace ∉ py_str kv.2) →
    answers.foldl
      (fun draft kv =>
        if substr_in (placeholder kv.1) draft then
          str_replace draft (placeholder kv.1) (py_str kv.2)
        else draft)
      (flatten_toks toks) = flatten_toks (toks.map (subst_answers answers)) := by
  induction answers with
  | nil =>
    intro toks _ _ _ _
    rw [List.foldl_nil, map_subst_answers_nil]
  | cons kv rest ih =>
    intro toks hlit hvar hak hav
    obtain ⟨k, v⟩ := kv
    rw [List.foldl_cons]
    have hstep :
        (if substr_in (placeholder k) (flatten_toks toks) then
          str_replace (flatten_toks toks) (placeholder k) (py_str v)
        else flatten_toks toks) = flatten_toks (toks.map (subst_tok k (py_str v))) := by
      by_cases hin : substr_in (placeholder k) (flatten_toks toks) = true
      · rw [if_pos (by simp [hin])]
        exact str_replace_flatten toks k (py_str v) hlit hvar
          (hak (k, v) (List.mem_cons_self _ _))
      · rw [if_neg (by simp at hin ⊢; exact hin)]
        rw [map_subst_tok_id toks k (py_str v)
          (no_var_of_not_substr toks k (Bool.not_eq_true _ ▸ hin))]
    rw [hstep]
    have hlit' : ∀ s, Tok.lit s ∈ toks.map (subst_tok k (py_str v)) → lbrace ∉ s := by
      intro s hs
      obtain ⟨t, ht, hts⟩ := List.mem_map.mp hs
      rcases subst_tok_lit_inv k (py_str v) t s hts with h | h
      · exact h ▸ hav (k, v) (List.mem_cons_self _ _)
      · exact hlit s (h ▸ ht)
    have hvar' : ∀ j, Tok.var j ∈ toks.map (subst_tok k (py_str v)) → brace_free j := by
      intro j hj
      obtain ⟨t, ht, hts⟩ := List.mem_map.mp hj
      exact hvar j (subst_tok_var_inv k (py_str v) t j hts ▸ ht)
    rw [ih _ hlit' hvar' (fun x hx => hak x (List.mem_cons_of_mem _ hx))
      (fun x hx => hav x (List.mem_cons_of_mem _ hx)), List.map_map]
    exact congrArg flatten_toks
      (List.map_congr_left fun t _ => (subst_answers_cons_tok k v rest t).symm)

theorem strip_frontmatter_id (body : List Char) (h : dashes.isPrefixOf body = false) :
    strip_frontmatter body = body := by
  unfold strip_frontmatter
  rw [if_neg (by simp [h])]

/-- The replacement loop never changes text in which no answered key's
placeholder occurs. -/
theorem foldl_no_replacement (answers : List (List Char × Option (List Char))) (d : List Char)
    (h : ∀ kv ∈ answers, substr_in (placeholder kv.1) d = false) :
    answers.foldl
      (fun draft kv =>
        if substr_in (placeholder kv.1) draft then
          str_replace draft (placeholder kv.1) (py_str kv.2)
        else draft)
      d = d := by
  induction answers with
  | nil => rfl
  | cons kv rest ih =>
    rw [List.foldl_cons, if_neg (by simp [h kv (List.mem_cons_self _ _)]),
      ih (fun x hx => h x (List.mem_cons_of_mem _ hx))]

/-! ## Claim C2 -/

/-- C2, counterexample: the claim says a key present in `answers` with a
null value leaves its placeholder untouched, but `render_draft` replaces
it with the empty string (source line 536 converts `None` to `""` and
line 537 replaces unconditionally).  On body `"A{{k}}B"` with
`answers = {"k": None}` the output is `"AB"`: the placeholder for `k` is
gone, not left unchanged. -/
theorem render_null_value_replaced_cex :
    render_draft ['A', lbrace, lbrace, 'k', rbrace, rbrace, 'B'] [(['k'], none)] = ['A', 'B'] ∧
    substr_in (placeholder ['k'])
      (render_draft ['A', lbrace, lbrace, 'k', rbrace, rbrace, 'B'] [(['k'], none)]) = false := by
  decide

/-- C2 (amended): for every well-formed body (literal runs without opening
braces, brace-free keys) and answers with brace-free keys and values that
introduce no opening brace, `render_draft` substitutes every placeholder
whose key is present in `answers` — non-null values by their string form
and null (or empty) values by the empty string — while every placeholder
whose key is absent from `answers` is left untouched. -/
theorem render_draft_substitution_spec (toks : List Tok)
    (answers : List (List Char × Option (List Char)))
    (htoks : ∀ t ∈ toks, tok_ok t)
    (hans : ∀ kv ∈ answers, brace_free kv.1 ∧ lbrace ∉ py_str kv.2)
    (hfm : dashes.isPrefixOf (flatten_toks toks) = false) :
    render_draft (flatten_toks toks) answers =
      flatten_toks (toks.map (subst_answers answers)) := by
  show answers.foldl _ (strip_frontmatter (flatten_toks toks)) = _
  rw [strip_frontmatter_id _ hfm]
  exact render_loop_flatten answers toks (fun s hs => htoks (.lit s) hs)
    (fun j hj => htoks (.var j) hj) (fun kv hkv => (hans kv hkv).1)
    (fun kv hkv => (hans kv hkv).2)

/-- C2 witness: the spec's own scenario `"Hello {{name}}, due {{amount}}"`
with `answers = {"name": "Acme"}`. -/
theorem render_draft_substitution_spec_witness :
    render_draft
        (flatten_toks
          [.lit ['H', 'e', 'l', 'l', 'o', ' '], .var ['n', 'a', 'm', 'e'],
           .lit [',', ' ', 'd', 'u', 'e', ' '], .var ['a', 'm', 'o', 'u', 'n', 't']])
        [(['n', 'a', 'm', 'e'], some ['A', 'c', 'm', 'e'])] =
      flatten_toks
        (List.map
          (subst_answers [(['n', 'a', 'm', 'e'], some ['A', 'c', 'm', 'e'])])
          [.lit ['H', 'e', 'l', 'l', 'o', ' '], .var ['n', 'a', 'm', 'e'],
           .lit [',', ' ', 'd', 'u', 'e', ' '], .var ['a', 'm', 'o', 'u', 'n', 't']]) :=
  render_draft_substitution_spec
    [.lit ['H', 'e', 'l', 'l', 'o', ' '], .var ['n', 'a', 'm', 'e'],
     .lit [',', ' ', 'd', 'u', 'e', ' '], .var ['a', 'm', 'o', 'u', 'n', 't']]
    [(['n', 'a', 'm', 'e'], some ['A', 'c', 'm', 'e'])]
    (by decide) (by decide) (by decide)

/-! ## Claim C9 -/

/-- C9, counterexample: rendering is not idempotent for every body and
answers map.  With body `"{{a}}"` and `answers = {"b": "x", "a": "{{b}}"}`
(dict insertion order `b` then `a`), the first pass produces `"{{b}}"`
(the value of `a` reintroduces a placeholder already iterated past), and
the second pass produces `"x"`. -/
theorem render_not_idempotent_cex :
    render_draft
        (render_draft [lbrace, lbrace, 'a', rbrace, rbrace]
          [(['b'], some ['x']), (['a'], some [lbrace, lbrace, 'b', rbrace, rbrace])])
        [(['b'], some ['x']), (['a'], some [lbrace, lbrace, 'b', rbrace, rbrace])]
      ≠ render_draft [lbrace, lbrace, 'a', rbrace, rbrace]
          [(['b'], some ['x']), (['a'], some [lbrace, lbrace, 'b', rbrace, rbrace])] := by
  decide

/-- C9 (amended): rendering is idempotent whenever one pass leaves no
reprocessable placeholder — no answered key's placeholder occurs in the
once-rendered output and the output does not itself start with the
frontmatter delimiter. -/
theorem render_draft_idempotent (body : List Char)
    (answers : List (List Char × Option (List Char)))
    (h1 : ∀ kv ∈ answers,
      substr_in (placeholder kv.1) (render_draft body answers) = false)
    (h2 : dashes.isPrefixOf (render_draft body answers) = false) :
    render_draft (render_draft body answers) answers = render_draft body answers := by
  show answers.foldl _ (strip_frontmatter (render_draft body answers)) = _
  rw [strip_frontmatter_id _ h2]
  exact foldl_no_replacement answers (render_draft body answers) h1

/-- C9 witness: `"Hello {{name}}"` with `answers = {"name": "Acme"}`
renders to `"Hello Acme"`, and rendering again changes nothing. -/
theorem render_draft_idempotent_witness :
    render_draft
        (render_draft
          ['H', 'e', 'l', 'l', 'o', ' ', lbrace, lbrace, 'n', 'a', 'm', 'e', rbrace, rbrace]
          [(['n', 'a', 'm', 'e'], some ['A', 'c', 'm', 'e'])])
        [(['n', 'a', 'm', 'e'], some ['A', 'c', 'm', 'e'])] =
      render_draft
        ['H', 'e', 'l', 'l', 'o', ' ', lbrace, lbrace, 'n', 'a', 'm', 'e', rbrace, rbrace]
        [(['n', 'a', 'm', 'e'], some ['A', 'c', 'm', 'e'])] :=
  render_draft_idempotent
    ['H', 'e', 'l', 'l', 'o', ' ', lbrace, lbrace, 'n', 'a', 'm', 'e', rbrace, rbrace]
    [(['n', 'a', 'm', 'e'], some ['A', 'c', 'm', 'e'])] (by decide) (by decide)

/-! ## Lemmas: vector math -/

theorem sum_sq_nonneg (a : List ℝ) : 0 ≤ sum_sq a := by
  apply List.sum_nonneg
  intro x hx
  obtain ⟨y, _, hy⟩ := List.mem_map.mp hx
  exact hy ▸ mul_self_nonneg y

theorem dot_cons (x y : ℝ) (a b : List ℝ) : dot (x :: a) (y :: b) = x * y + dot a b := by
  simp [dot]

theorem sum_sq_cons (x : ℝ) (a : List ℝ) : sum_sq (x :: a) = x * x + sum_sq a := by
  simp [sum_sq]

/-- Cauchy-Schwarz for the list dot product (no length hypothesis:
`zipWith` truncates and the squares on the right only grow). -/
theorem dot_sq_le (a : List ℝ) : ∀ b : List ℝ, (dot a b) ^ 2 ≤ sum_sq a * sum_sq b := by
  induction a with
  | nil => intro b; simp [dot, sum_sq]
  | cons x a ih =>
    intro b
    cases b with
    | nil => simp [dot, sum_sq]
    | cons y b =>
      have h := ih b
      have ha := sum_sq_nonneg a
      have hb := sum_sq_nonneg b
      rw [dot_cons, sum_sq_cons, sum_sq_cons]
      rcases eq_or_lt_of_le hb with hb0 | hb0
      · -- sum_sq b = 0: the cross term vanishes
        have hd0 : dot a b = 0 := by
          have h2 : (dot a b) ^ 2 ≤ 0 := by
            calc (dot a b) ^ 2 ≤ sum_sq a * sum_sq b := h
            _ = 0 := by rw [← hb0, mul_zero]
          exact pow_eq_zero_iff two_ne_zero |>.mp (le_antisymm h2 (sq_nonneg _))
        rw [hd0, ← hb0]
        nlinarith [mul_nonneg ha (mul_self_nonneg y), sq_nonneg (x * y)]
      · nlinarith [sq_nonneg (x * sum_sq b - y * dot a b),
          mul_nonneg (mul_self_nonneg y) (sub_nonneg.mpr h),
          mul_nonneg (le_of_lt hb0) (sub_nonneg.mpr h)]

theorem abs_dot_le (a b : List ℝ) :
    |dot a b| ≤ Real.sqrt (sum_sq a) * Real.sqrt (sum_sq b) := by
  calc |dot a b| = Real.sqrt ((dot a b) ^ 2) := (Real.sqrt_sq_eq_abs _).symm
  _ ≤ Real.sqrt (sum_sq a * sum_sq b) := Real.sqrt_le_sqrt (dot_sq_le a b)
  _ = Real.sqrt (sum_sq a) * Real.sqrt (sum_sq b) := Real.sqrt_mul (sum_sq_nonneg a) _

/-! ## Claim C7 -/

/-- C7 (confirmed): `compute_similarity` returns exactly `0.0` when either
vector is empty, when the dimensions mismatch, and when either vector has
zero norm (equivalently, zero sum of squares); in every other case it
equals the standard cosine of the two vectors remapped by
`(cos + 1) / 2` — the clamp in the source is the identity here because
Cauchy-Schwarz keeps the cosine inside `[-1, 1]`. -/
theorem compute_similarity_spec (a b : List ℝ) :
    (a = [] ∨ b = [] → compute_similarity a b = 0) ∧
    (a.length ≠ b.length → compute_similarity a b = 0) ∧
    (sum_sq a = 0 ∨ sum_sq b = 0 → compute_similarity a b = 0) ∧
    (a ≠ [] → b ≠ [] → a.length = b.length → sum_sq a ≠ 0 → sum_sq b ≠ 0 →
      compute_similarity a b =
        (dot a b / (Real.sqrt (sum_sq a) * Real.sqrt (sum_sq b)) + 1) / 2) := by
  refine ⟨?_, ?_, ?_, ?_⟩
  · intro h
    rcases h with h | h <;> simp [compute_similarity, h]
  · intro h
    unfold compute_similarity
    split_ifs <;> rfl
  · intro h
    unfold compute_similarity
    split_ifs with h1 h2 h3
    · rfl
    · rfl
    · rfl
    · exfalso
      rcases h with h | h
      · exact h3 (Or.inl (by rw [h, Real.sqrt_zero]))
      · exact h3 (Or.inr (by rw [h, Real.sqrt_zero]))
  · intro ha hb hlen hsa hsb
    have hsqa : Real.sqrt (sum_sq a) ≠ 0 := by
      rw [Real.sqrt_ne_zero (sum_sq_nonneg a)]
      exact hsa
    have hsqb : Real.sqrt (sum_sq b) ≠ 0 := by
      rw [Real.sqrt_ne_zero (sum_sq_nonneg b)]
      exact hsb
    have hP : 0 < Real.sqrt (sum_sq a) * Real.sqrt (sum_sq b) := by
      apply mul_pos <;>
        [exact lt_of_le_of_ne (Real.sqrt_nonneg _) (Ne.symm hsqa);
         exact lt_of_le_of_ne (Real.sqrt_nonneg _) (Ne.symm hsqb)]
    have habs : |dot a b / (Real.sqrt (sum_sq a) * Real.sqrt (sum_sq b))| ≤ 1 := by
      rw [abs_div, abs_of_pos hP]
      exact (div_le_one hP).mpr (abs_dot_le a b)
    obtain ⟨hlo, hhi⟩ := abs_le.mp habs
    unfold compute_similarity
    rw [if_neg (by simp [List.isEmpty_iff, ha, hb]), if_neg (by simp [hlen]),
      if_neg (by simp [hsqa, hsqb])]
    rw [min_eq_right (by linarith), max_eq_right (by linarith)]

/-- C7 witness: two one-dimensional unit vectors hit the cosine branch. -/
theorem compute_similarity_spec_witness :
    compute_similarity [1] [1] =
      (dot [1] [1] / (Real.sqrt (sum_sq [1]) * Real.sqrt (sum_sq [1])) + 1) / 2 :=
  (compute_similarity_spec [1] [1]).2.2.2 (by simp) (by simp) rfl
    (by simp [sum_sq]) (by simp [sum_sq])

/-! ## Claim C8 -/

/-- C8 (confirmed): for `k ≥ 1`, `find_most_similar` returns at most `k`
indices, all valid and pairwise distinct, ordered by similarity score
descending, with candidates of equal score kept in their original
relative order (the index of the earlier candidate comes first), and it
returns the empty sequence when the candidate list is empty. -/
theorem find_most_similar_spec (q : List ℝ) (cands : List (List ℝ)) (k : ℕ) (hk : 1 ≤ k) :
    (cands = [] → find_most_similar q cands k = []) ∧
    (find_most_similar q cands k).length ≤ k ∧
    (∀ i ∈ find_most_similar q cands k, i < cands.length) ∧
    (find_most_similar q cands k).Nodup ∧
    List.Pairwise
      (fun i j =>
        compute_similarity q (cands.getD j []) ≤ compute_similarity q (cands.getD i []) ∧
        (compute_similarity q (cands.getD i []) = compute_similarity q (cands.getD j []) →
          i ≤ j))
      (find_most_similar q cands k) := by
  by_cases hguard : (q.isEmpty || cands.isEmpty) = true
  · refine ⟨fun _ => by simp [find_most_similar, hguard], ?_, ?_, ?_, ?_⟩ <;>
      simp [find_most_similar, hguard]
  · have hres : find_most_similar q cands k =
        ((List.insertionSort py_rank
            ((List.range cands.length).map
              (fun i => (i, compute_similarity q (cands.getD i []))))).take k).map
          Prod.fst := by
      unfold find_most_similar
      rw [if_neg (by simp at hguard ⊢; exact hguard)]
    set sims := (List.range cands.length).map
      (fun i => (i, compute_similarity q (cands.getD i []))) with hsims
    set sorted := List.insertionSort py_rank sims with hsorted_def
    have hperm : sorted.Perm sims := List.perm_insertionSort py_rank sims
    have hmem_char : ∀ p ∈ sorted,
        p.1 < cands.length ∧ p.2 = compute_similarity q (cands.getD p.1 []) := by
      intro p hp
      have hp' : p ∈ sims := hperm.mem_iff.mp hp
      obtain ⟨i, hi, hpi⟩ := List.mem_map.mp hp'
      constructor
      · rw [← hpi]
        exact List.mem_range.mp hi
      · rw [← hpi]
    refine ⟨?_, ?_, ?_, ?_, ?_⟩
    · intro hc
      exfalso
      simp [hc] at hguard
    · rw [hres, List.length_map, List.length_take]
      exact min_le_left _ _
    · intro i hi
      rw [hres] at hi
      obtain ⟨p, hp, hpi⟩ := List.mem_map.mp hi
      have := hmem_char p (List.take_subset k sorted hp)
      exact hpi ▸ this.1
    · rw [hres]
      have hfst : sims.map Prod.fst = List.range cands.length := by
        rw [hsims, List.map_map]
        exact (List.map_congr_left fun i _ => rfl).trans (List.map_id _)
      have hnd_sims : (sims.map Prod.fst).Nodup := by
        rw [hfst]
        exact List.nodup_range _
      have hnd_sorted : (sorted.map Prod.fst).Nodup :=
        ((hperm.map Prod.fst).nodup_iff).mpr hnd_sims
      exact List.Nodup.sublist (List.Sublist.map Prod.fst (List.take_sublist k sorted))
        hnd_sorted
    · rw [hres, List.pairwise_map]
      have hsorted : List.Sorted py_rank sorted := List.sorted_insertionSort py_rank sims
      have htake : List.Pairwise py_rank (sorted.take k) :=
        List.Pairwise.sublist (List.take_sublist k sorted) hsorted
      refine List.Pairwise.imp_of_mem ?_ htake
      intro p p' hp hp' hrank
      have h1 := hmem_char p (List.take_subset k sorted hp)
      have h2 := hmem_char p' (List.take_subset k sorted hp')
      rcases hrank with hlt | ⟨heq, hle⟩
      · rw [← h1.2, ← h2.2]
        exact ⟨le_of_lt hlt, fun hcontra => absurd (hcontra ▸ hlt) (lt_irrefl _)⟩
      · rw [← h1.2, ← h2.2]
        exact ⟨le_of_eq heq.symm, fun _ => hle⟩

/-- C8 witness: the empty candidate list with `k = 1` yields the empty
sequence, of length at most 1. -/
theorem find_most_similar_spec_witness :
    find_most_similar [1] [] 1 = [] ∧ (find_most_similar [1] [] 1).length ≤ 1 :=
  ⟨(find_most_similar_spec [1] [] 1 (Nat.le_refl 1)).1 rfl,
    (find_most_similar_spec [1] [] 1 (Nat.le_refl 1)).2.1⟩

/-! ## Lemmas: persistence model -/

theorem dot_self_eq_sum_sq (a : List ℝ) : dot a a = sum_sq a := by
  induction a with
  | nil => simp [dot, sum_sq]
  | cons x a ih => rw [dot_cons, sum_sq_cons, ih]

theorem cosine_distance_bounds (a b : List ℝ) :
    0 ≤ cosine_distance a b ∧ cosine_distance a b ≤ 2 := by
  unfold cosine_distance
  rcases eq_or_lt_of_le
      (mul_nonneg (Real.sqrt_nonneg (sum_sq a)) (Real.sqrt_nonneg (sum_sq b))) with hP | hP
  · rw [← hP, div_zero]
    norm_num
  · have habs : |dot a b / (Real.sqrt (sum_sq a) * Real.sqrt (sum_sq b))| ≤ 1 := by
      rw [abs_div, abs_of_pos hP]
      exact (div_le_one hP).mpr (abs_dot_le a b)
    obtain ⟨h1, h2⟩ := abs_le.mp habs
    constructor <;> linarith

theorem cosine_distance_self (e : List ℝ) (h : sum_sq e ≠ 0) : cosine_distance e e = 0 := by
  unfold cosine_distance
  rw [dot_self_eq_sum_sq, Real.mul_self_sqrt (sum_sq_nonneg e), div_self h, sub_self]

theorem mem_query_nearest (dbt : List TRec) (v : List ℝ) (p : TRec × ℝ)
    (hp : p ∈ query_nearest dbt v) :
    p.1 ∈ dbt ∧ p.1.embedding.isSome = true ∧
      p.2 = cosine_distance (p.1.embedding.getD []) v := by
  unfold query_nearest at hp
  have hp' := (List.perm_insertionSort _ _).mem_iff.mp hp
  obtain ⟨t, ht, hpt⟩ := List.mem_map.mp hp'
  obtain ⟨htm, hts⟩ := List.mem_filter.mp ht
  subst hpt
  exact ⟨htm, hts, rfl⟩

theorem pair_mem_query_nearest (dbt : List TRec) (v : List ℝ) (t : TRec) (ht : t ∈ dbt)
    (hs : t.embedding.isSome = true) :
    (t, cosine_distance (t.embedding.getD []) v) ∈ query_nearest dbt v := by
  unfold query_nearest
  exact (List.perm_insertionSort _ _).mem_iff.mpr
    (List.mem_map.mpr ⟨t, List.mem_filter.mpr ⟨ht, hs⟩, rfl⟩)

theorem query_nearest_head_min (dbt : List TRec) (v : List ℝ) (p : TRec × ℝ)
    (rest : List (TRec × ℝ)) (hq : query_nearest dbt v = p :: rest) :
    ∀ x ∈ query_nearest dbt v, p.2 ≤ x.2 := by
  have hs : List.Sorted (fun x y : TRec × ℝ => x.2 ≤ y.2) (query_nearest dbt v) :=
    List.sorted_insertionSort _ _
  rw [hq] at hs ⊢
  intro x hx
  rcases List.mem_cons.mp hx with h | h
  · rw [h]
  · exact List.rel_of_sorted_cons hs x h

/-! ## Claim C5 -/

/-- Concrete evaluation: a stored embedding exactly opposite to the query
has pgvector cosine distance 2, so `find_similar_templates` attaches the
score `1 - 2 = -1`. -/
theorem find_similar_neg_eval :
    find_similar_templates [1] [sample_template (some [-1])] 5 =
      [(sample_template (some [-1]), -1)] := by
  have hd : cosine_distance [(-1 : ℝ)] [1] = 2 := by
    unfold cosine_distance dot sum_sq
    norm_num [Real.sqrt_one]
  unfold find_similar_templates query_nearest
  simp [sample_template, List.insertionSort, List.orderedInsert, hd]
  norm_num

/-- C5, counterexample: the semantic similarity attached by
`find_similar_templates` is `1.0 - distance` without clamping
(source lines 726-731), and pgvector's cosine distance reaches 2 for
anti-parallel vectors, so the attached score can be `-1`, outside
`[0, 1]`. -/
theorem semantic_similarity_negative_cex :
    find_similar_templates [1] [sample_template (some [-1])] 5 =
      [(sample_template (some [-1]), -1)] ∧ ¬ (0 : ℝ) ≤ -1 :=
  ⟨find_similar_neg_eval, by norm_num⟩

/-- C5 (amended): every score attached by the semantic nearest-neighbour
search lies in `[-1, 1]` (and only in `[0, 1]` when the cosine distance
happens to be at most 1). -/
theorem find_similar_similarity_bounds (q : List ℝ) (dbt : List TRec) (k : ℕ) :
    ∀ p ∈ find_similar_templates q dbt k, -1 ≤ p.2 ∧ p.2 ≤ 1 := by
  intro p hp
  unfold find_similar_templates at hp
  obtain ⟨td, htd, hptd⟩ := List.mem_map.mp hp
  obtain ⟨_, _, hdist⟩ := mem_query_nearest dbt q td (List.take_subset _ _ htd)
  have hb := cosine_distance_bounds (td.1.embedding.getD []) q
  rw [← hdist] at hb
  subst hptd
  constructor
  · show -1 ≤ 1 - td.2
    linarith [hb.2]
  · show 1 - td.2 ≤ 1
    linarith [hb.1]

/-- C5 witness: the amended bounds at the concrete anti-parallel result. -/
theorem find_similar_similarity_bounds_witness :
    -1 ≤ ((sample_template (some [-1]), (-1 : ℝ))).2 ∧
      ((sample_template (some [-1]), (-1 : ℝ))).2 ≤ 1 :=
  find_similar_similarity_bounds [1] [sample_template (some [-1])] 5 _
    (by rw [find_similar_neg_eval]; exact List.mem_singleton.mpr rfl)

/-! ## Claim C6 -/

/-- Evaluating the nearest-template query on a one-template database
whose stored embedding equals the query vector. -/
theorem query_nearest_self_singleton :
    query_nearest [sample_template (some [1])] [1] = [(sample_template (some [1]), 0)] := by
  have hcd0 : cosine_distance [(1 : ℝ)] [1] = 0 := by
    unfold cosine_distance dot sum_sq
    norm_num [Real.sqrt_one]
  unfold query_nearest
  simp [sample_template, List.insertionSort, List.orderedInsert, hcd0]

/-- Evaluating the duplicate check at the same concrete input. -/
theorem check_duplicate_self_singleton :
    check_duplicate_template (some [1]) [sample_template (some [1])] (9 / 10) =
      some (sample_template (some [1]), 1) := by
  unfold check_duplicate_template
  rw [if_neg (by simp [py_truthy]),
    show ((some [1] : Option (List ℝ)).getD []) = [1] from rfl, query_nearest_self_singleton]
  show (if (9 : ℝ) / 10 ≤ 1 - 0 then some (sample_template (some [1]), 1 - 0) else none) =
    some (sample_template (some [1]), 1)
  rw [if_pos (by norm_num)]
  norm_num

/-- C6, counterexample: ingestion does not return the existing template's
variables.  The question-retrieval loop of the duplicate branch reads
`var.question` (template_generator.py:275) but `TemplateVariable` has no
`question` column, so the loop raises `AttributeError`, the handler at
line 295 swallows it, and the branch returns an empty questions list.
Here the stored duplicate has one variable, yet re-ingesting identical
content returns the template with `[]` — not its variables. -/
theorem duplicate_ingestion_drops_variables_cex :
    generate_template (some [1]) (sample_template none) []
        ⟨[sample_template (some [1])], [sample_variable]⟩ (fun _ => false) =
      (⟨[sample_template (some [1])], [sample_variable]⟩,
        .ok (sample_template (some [1]), [])) ∧
    questions_for ⟨[sample_template (some [1])], [sample_variable]⟩
        (sample_template (some [1])) = [sample_variable] ∧
    [sample_variable] ≠ ([] : List VRec) := by
  refine ⟨?_, by decide, by simp⟩
  unfold generate_template
  rw [if_pos (show py_truthy (some [1]) = true from rfl), check_duplicate_self_singleton]

/-- C6 (amended): if some stored template has embedding `e` (with nonzero
norm), then ingesting content whose embedding is also `e` makes the
duplicate check return an existing stored template with similarity
exactly `1.0`, and the ingestion returns that template together with an
empty questions list — not its stored variables, whose retrieval always
fails and is swallowed — while leaving the database unchanged: no second
record is created. -/
theorem duplicate_ingestion_idempotent (db : DB) (t0 : TRec) (e : List ℝ) (tpl : TRec)
    (vars : List VRec) (oracle : ℕ → Bool) (h0 : t0 ∈ db.templates)
    (hemb : t0.embedding = some e) (hsq : sum_sq e ≠ 0) (hne : e ≠ []) :
    ∃ t' : TRec, t' ∈ db.templates ∧ t'.embedding.isSome = true ∧
      check_duplicate_template (some e) db.templates (9 / 10) = some (t', 1) ∧
      generate_template (some e) tpl vars db oracle = (db, .ok (t', [])) := by
  have htruthy : py_truthy (some e) = true := by
    cases e with
    | nil => exact absurd rfl hne
    | cons c t => rfl
  have hs0 : t0.embedding.isSome = true := by rw [hemb]; rfl
  have ht0mem := pair_mem_query_nearest db.templates e t0 h0 hs0
  have hd0 : t0.embedding.getD [] = e := by rw [hemb]; rfl
  rw [hd0, cosine_distance_self e hsq] at ht0mem
  cases hq : query_nearest db.templates e with
  | nil => rw [hq] at ht0mem; cases ht0mem
  | cons p rest =>
    obtain ⟨pt, pd⟩ := p
    obtain ⟨hp_mem, hp_some, hp_dist⟩ :=
      mem_query_nearest db.templates e (pt, pd) (hq ▸ List.mem_cons_self _ rest)
    have hp_nonneg : (0 : ℝ) ≤ pd := by
      have := (cosine_distance_bounds ((pt, pd).1.embedding.getD []) e).1
      rw [← hp_dist] at this
      exact this
    have hp_le : pd ≤ 0 := by
      have := query_nearest_head_min db.templates e (pt, pd) rest hq (t0, 0) (hq ▸ ht0mem)
      simpa using this
    have hp0 : pd = 0 := le_antisymm hp_le hp_nonneg
    subst hp0
    have hcd : check_duplicate_template (some e) db.templates (9 / 10) = some (pt, 1) := by
      unfold check_duplicate_template
      rw [if_neg (by rw [htruthy]; simp)]
      have hget : (some e).getD [] = e := rfl
      rw [hget, hq]
      show (if (9 : ℝ) / 10 ≤ 1 - 0 then some (pt, 1 - 0) else none) = some (pt, 1)
      rw [if_pos (by norm_num)]
      norm_num
    refine ⟨pt, hp_mem, hp_some, hcd, ?_⟩
    unfold generate_template
    rw [if_pos htruthy, hcd]

/-- C6 witness: one stored template with embedding `[1]`, re-ingested
with the same embedding, is returned as the duplicate with similarity
exactly 1 (and an empty questions list) and the database is unchanged. -/
theorem duplicate_ingestion_idempotent_witness :
    check_duplicate_template (some [1]) [sample_template (some [1])] (9 / 10) =
        some (sample_template (some [1]), 1) ∧
      generate_template (some [1]) (sample_template none) [sample_variable]
          ⟨[sample_template (some [1])], []⟩ (fun _ => false) =
        (⟨[sample_template (some [1])], []⟩, .ok (sample_template (some [1]), [])) := by
  obtain ⟨t', ht', _, hcd, hgen⟩ :=
    duplicate_ingestion_idempotent ⟨[sample_template (some [1])], []⟩
      (sample_template (some [1])) [1] (sample_template none) [sample_variable]
      (fun _ => false) (List.mem_singleton.mpr rfl) rfl (by norm_num [sum_sq]) (by simp)
  have ht'eq : t' = sample_template (some [1]) := List.mem_singleton.mp ht'
  subst ht'eq
  exact ⟨hcd, hgen⟩

/-! ## Claim C10 -/

/-- C10 (confirmed): when embedding generation failed (`None`),
`generate_template` skips the duplicate check entirely — whatever the
database holds, once the template commit succeeds the new template is
persisted with a null embedding (its variables are not: building them
raises when the list is non-empty, but the template record is already
committed) — and such a template is invisible to later nearest-neighbour
searches and duplicate checks, both of which only ever return templates
with a non-null embedding. -/
theorem null_embedding_skips_check_and_is_invisible (tpl : TRec) (vars : List VRec) (db : DB)
    (oracle : ℕ → Bool) (h0 : oracle 0 = false) :
    (generate_template none tpl vars db oracle).1.templates =
        db.templates ++ [{ tpl with embedding := none }] ∧
    (∀ (q : List ℝ) (dbt : List TRec) (k : ℕ) (p : TRec × ℝ),
      p ∈ find_similar_templates q dbt k → p.1.embedding ≠ none) ∧
    (∀ (emb : Option (List ℝ)) (dbt : List TRec) (thr : ℝ) (t : TRec) (s : ℝ),
      check_duplicate_template emb dbt thr = some (t, s) → t.embedding ≠ none) := by
  refine ⟨?_, ?_, ?_⟩
  · unfold generate_template save_template_and_variables
    rw [if_neg (by simp [py_truthy]), if_neg (by simp [h0])]
    by_cases hv : vars.isEmpty = true
    · rw [if_pos hv]
      by_cases h1 : oracle 1 = true
      · rw [if_pos h1]
      · rw [if_neg h1]
    · rw [if_neg hv]
  · intro q dbt k p hp
    unfold find_similar_templates at hp
    obtain ⟨td, htd, hptd⟩ := List.mem_map.mp hp
    obtain ⟨_, hsome, _⟩ := mem_query_nearest dbt q td (List.take_subset _ _ htd)
    subst hptd
    exact Option.ne_none_iff_isSome.mpr hsome
  · intro emb dbt thr t s h
    unfold check_duplicate_template at h
    cases hpt : py_truthy emb with
    | false =>
      rw [hpt] at h
      simp at h
    | true =>
      rw [hpt] at h
      rw [if_neg (by simp)] at h
      cases hq : query_nearest dbt (emb.getD []) with
      | nil => rw [hq] at h; cases h
      | cons p rest =>
        obtain ⟨pt, pd⟩ := p
        rw [hq] at h
        obtain ⟨_, hsome, _⟩ :=
          mem_query_nearest dbt (emb.getD []) (pt, pd) (hq ▸ List.mem_cons_self _ rest)
        by_cases hth : thr ≤ 1 - pd
        · rw [show (match (pt, pd) :: rest with
              | [] => (none : Option (TRec × ℝ))
              | (t, d) :: _ => if thr ≤ 1 - d then some (t, 1 - d) else none) =
              if thr ≤ 1 - pd then some (pt, 1 - pd) else none from rfl, if_pos hth] at h
          obtain ⟨ht, _⟩ := Prod.mk.injEq pt (1 - pd) t s ▸ Option.some.inj h
          rw [← ht]
          exact Option.ne_none_iff_isSome.mpr hsome
        · rw [show (match (pt, pd) :: rest with
              | [] => (none : Option (TRec × ℝ))
              | (t, d) :: _ => if thr ≤ 1 - d then some (t, 1 - d) else none) =
              if thr ≤ 1 - pd then some (pt, 1 - pd) else none from rfl, if_neg hth] at h
          cases h

/-- C10 witness: with a succeeding template commit and one (never
persistable) variable, the template record with null embedding is
committed. -/
theorem null_embedding_skips_check_witness :
    (generate_template none (sample_template none) [sample_variable] ⟨[], []⟩
        (fun _ => false)).1.templates =
      ([] : List TRec) ++ [{ sample_template none with embedding := none }] :=
  (null_embedding_skips_check_and_is_invisible (sample_template none) [sample_variable]
    ⟨[], []⟩ (fun _ => false) rfl).1

/-! ## Claim C1 -/

/-- C1, counterexample: template insertion is not atomic.  With an empty
database and a template with one variable, the template commit succeeds
and then building the first variable record raises (the `question=`
keyword names a column `TemplateVariable` does not have), so the
post-state holds the template record but none of its variable records,
and the call reports an error — exactly the partial state the claim
rules out. -/
theorem insert_not_atomic_cex :
    (generate_template (some [1]) (sample_template (some [1])) [sample_variable] ⟨[], []⟩
        (fun _ => false)).1.templates = [sample_template (some [1])] ∧
    (generate_template (some [1]) (sample_template (some [1])) [sample_variable] ⟨[], []⟩
        (fun _ => false)).1.template_variables = [] ∧
    [sample_variable] ≠ ([] : List VRec) ∧
    (generate_template (some [1]) (sample_template (some [1])) [sample_variable] ⟨[], []⟩
        (fun _ => false)).2 =
      .error
        "Failed to generate template: question is an invalid keyword argument for TemplateVariable" := by
  refine ⟨rfl, rfl, by simp, rfl⟩

/-- Exhaustive outcomes of the save phase: nothing persisted, the
template persisted alone (variable build error or second-commit failure),
or template and variables persisted (only reachable with an empty
variable list). -/
theorem save_template_cases (embedding : Option (List ℝ)) (tpl : TRec) (vars : List VRec)
    (db : DB) (oracle : ℕ → Bool) :
    save_template_and_variables embedding tpl vars db oracle =
        (db, .error "Failed to save template to database") ∨
      (∃ msg, save_template_and_variables embedding tpl vars db oracle =
        (⟨db.templates ++ [{ tpl with embedding := embedding }], db.template_variables⟩,
          .error msg)) ∨
      save_template_and_variables embedding tpl vars db oracle =
        (⟨db.templates ++ [{ tpl with embedding := embedding }],
            db.template_variables ++ vars⟩,
          .ok ({ tpl with embedding := embedding }, vars)) := by
  unfold save_template_and_variables
  by_cases h0 : oracle 0 = true
  · rw [if_pos h0]
    left
    rfl
  · rw [if_neg h0]
    by_cases hv : vars.isEmpty = true
    · rw [if_pos hv]
      by_cases h1 : oracle 1 = true
      · rw [if_pos h1]
        right
        left
        exact ⟨_, rfl⟩
      · rw [if_neg h1]
        right
        right
        rfl
    · rw [if_neg hv]
      right
      left
      exact ⟨_, rfl⟩

/-- C1 (amended): insertion is atomic only per commit, and the template
is committed before its variables.  The reachable post-states are:
database unchanged (duplicate hit or first commit failed), template
persisted without its variables (variable persistence failed after the
template commit), or template and all variables persisted.  In
particular the variable table changes only together with the template
being persisted — variables are never persisted without their template —
but the template can be persisted alone. -/
theorem insert_template_then_variables (embedding : Option (List ℝ)) (tpl : TRec)
    (vars : List VRec) (db : DB) (oracle : ℕ → Bool) :
    ((generate_template embedding tpl vars db oracle).1 = db ∨
      ((generate_template embedding tpl vars db oracle).1.templates =
          db.templates ++ [{ tpl with embedding := embedding }] ∧
        ((generate_template embedding tpl vars db oracle).1.template_variables =
            db.template_variables ∨
          (generate_template embedding tpl vars db oracle).1.template_variables =
            db.template_variables ++ vars))) ∧
    ((generate_template embedding tpl vars db oracle).1.template_variables =
        db.template_variables ∨
      ((generate_template embedding tpl vars db oracle).1.templates =
          db.templates ++ [{ tpl with embedding := embedding }] ∧
        (generate_template embedding tpl vars db oracle).1.template_variables =
          db.template_variables ++ vars)) := by
  have hcase : (∃ X, generate_template embedding tpl vars db oracle = (db, .ok X)) ∨
      generate_template embedding tpl vars db oracle =
        save_template_and_variables embedding tpl vars db oracle := by
    unfold generate_template
    cases hpt : py_truthy embedding with
    | true =>
      rw [if_pos rfl]
      cases hcd : check_duplicate_template embedding db.templates (9 / 10) with
      | some ts =>
        left
        exact ⟨(ts.1, []), rfl⟩
      | none =>
        right
        rfl
    | false =>
      right
      rw [if_neg (by simp)]
  rcases hcase with ⟨X, hX⟩ | hX
  · rw [hX]
    exact ⟨Or.inl rfl, Or.inl rfl⟩
  · rw [hX]
    rcases save_template_cases embedding tpl vars db oracle with h | ⟨msg, h⟩ | h <;> rw [h]
    · exact ⟨Or.inl rfl, Or.inl rfl⟩
    · exact ⟨Or.inr ⟨rfl, Or.inl rfl⟩, Or.inl rfl⟩
    · exact ⟨Or.inr ⟨rfl, Or.inr rfl⟩, Or.inr ⟨rfl, rfl⟩⟩

/-! ## Claim C3 -/

/-- C3, counterexample: on the fallback path with a failing fallback
collaborator (here the 404 "found nothing" HTTPException of
`create_template_from_web`), the stream's terminal event is a
`status: "error"` event — not the non-error found-false report the claim
requires (draft.py lines 180-187 yield `{'status': 'error', ...}`; the
`_create_no_match_response` helper is never called on this path). -/
theorem fallback_failure_error_event_cex :
    (match_template_stream [] ⟨false, none⟩
        (.error (.http "No suitable templates found on the web for your query"))).getLast? =
      some (.err "Web search failed: No suitable templates found on the web for your query") := by
  rfl

/-- C3 (amended): whenever the pipeline takes the fallback path and the
fallback collaborator fails or finds nothing (both surface as exceptions
of `create_template_from_web`), the stream catches the exception and
terminates with a single `status: "error"` event carrying an explanatory
message; no exception propagates, but the terminal event is an error
event, not a found-false "no match found" report. -/
theorem web_fallback_failure_ends_in_error_event (similar : List (TRec × ℚ))
    (cls : Classification) (err : WebErr) (hfb : fallback_path_taken similar cls) :
    (match_template_stream similar cls (.error err)).getLast? =
      some (.err (web_err_message err)) := by
  unfold match_template_stream
  by_cases hse : similar.isEmpty = true
  · rw [if_pos hse]
    rfl
  · rw [if_neg hse]
    rcases hfb with h | h | h | ⟨tm, htm, hfound, hq⟩
    · exact absurd h hse
    · rw [h]
      rfl
    · cases hcm : cls.top_match with
      | none => rfl
      | some tm =>
        rw [h]
        rfl
    · simp only [htm, hfound]
      rw [if_neg (by simp), if_pos hq]
      rfl

/-- C3 witness: a cold index with a generic fallback failure. -/
theorem web_fallback_failure_witness :
    (match_template_stream [] ⟨true, none⟩ (.error .other)).getLast? =
      some (.err (web_err_message .other)) :=
  web_fallback_failure_ends_in_error_event [] ⟨true, none⟩ .other (Or.inl rfl)

/-! ## Claim C4 -/

/-- C4 (confirmed): when the re-ranker returns a usable top match, the
stream computes the match quality as the maximum of the re-ranker
confidence (default 0) and the semantic similarity attached to the top
match's candidate entry (the search score rounded to three decimals, 0 if
the id is not among the candidates), and decides against the fixed
threshold `SEARCH_THRESHOLD = 0.75`: at or above it the stream ends with
the database match (source `"database"`), strictly below it the stream
diverts to the web-fallback block. -/
theorem match_quality_threshold_decision (similar : List (TRec × ℚ)) (cls : Classification)
    (tm : TopMatchData) (web : Except WebErr WebOk) (hne : similar.isEmpty = false)
    (htm : cls.top_match = some tm) (hfound : cls.found = true) :
    (SEARCH_THRESHOLD ≤ max (tm.confidence.getD 0)
        (get_semantic_similarity tm.template_id
          (similar.map (fun ts => cand_data ts.1 (py_round3 ts.2)))) →
      match_template_stream similar cls web =
        [.progress "searching" "Searching for matching templates...",
         .success "database" (tm.confidence.getD 0)
           (some (get_semantic_similarity tm.template_id
             (similar.map (fun ts => cand_data ts.1 (py_round3 ts.2))))) true]) ∧
    (max (tm.confidence.getD 0)
        (get_semantic_similarity tm.template_id
          (similar.map (fun ts => cand_data ts.1 (py_round3 ts.2)))) < SEARCH_THRESHOLD →
      match_template_stream similar cls web =
        .progress "searching" "Searching for matching templates..." ::
          web_fallback_events "Searching the web for better templates..." web) := by
  constructor
  · intro hq
    unfold match_template_stream
    rw [if_neg (by simp [hne])]
    simp only [htm, hfound]
    rw [if_neg (by simp), if_neg (not_lt.mpr hq)]
  · intro hq
    unfold match_template_stream
    rw [if_neg (by simp [hne])]
    simp only [htm, hfound]
    rw [if_neg (by simp), if_pos hq]

/-- C4 witness: one candidate with raw similarity 0.5, re-ranker
confidence 0.8; quality `max(0.8, 0.5) = 0.8 ≥ 0.75`, so the stream ends
with the database match. -/
theorem match_quality_threshold_decision_witness :
    match_template_stream [(sample_template none, 1 / 2)]
        ⟨true, some ⟨"tpl-1", none, some (4 / 5), none⟩⟩ (.ok ⟨"w-1", "Web Template", none⟩) =
      [.progress "searching" "Searching for matching templates...",
       .success "database"
         ((⟨"tpl-1", none, some (4 / 5), none⟩ : TopMatchData).confidence.getD 0)
         (some (get_semantic_similarity
           (⟨"tpl-1", none, some (4 / 5), none⟩ : TopMatchData).template_id
           ([(sample_template none, 1 / 2)].map
             (fun ts => cand_data ts.1 (py_round3 ts.2))))) true] :=
  (match_quality_threshold_decision [(sample_template none, 1 / 2)]
      ⟨true, some ⟨"tpl-1", none, some (4 / 5), none⟩⟩ ⟨"tpl-1", none, some (4 / 5), none⟩
      (.ok ⟨"w-1", "Web Template", none⟩) rfl rfl rfl).1
    (by norm_num [get_semantic_similarity, cand_data, py_round3, round_half_even,
      sample_template, SEARCH_THRESHOLD, le_max_iff])

end LegalPlates
